import Mathlib

/-!
Verification of the EODSA websocket relay core (src/server.js).

The server is a thin fan-out relay built on socket.io.  We embed the relay
core shallowly:

* `Value` models the JavaScript values a client can send as a payload
  (undefined, null, booleans, numbers, strings, and plain objects as
  association lists).
* `Conn` models one connected socket: the set of rooms it has joined
  (socket.io stores rooms in a `Set`, so we use an insertion-ordered
  duplicate-free list) and the `socket.data` attribute bag
  (`role`, `eventId`, `judgeId`).
* `Emit` models one `io.to(room).emit(name, payload)` call.
* `handle` is the dispatcher: given the inbound event name, the payload and
  the state of the emitting socket, it returns the updated socket state and
  the list of emits, or an error when the JavaScript handler would throw.
  In JavaScript, reading a property of `null`/`undefined` (as the handlers
  do with `data.eventId`, and as the destructuring in `join:judge` does)
  throws a TypeError; every other payload shape makes property access yield
  `undefined`.  This is the only fault the handlers can raise, so a handler
  faults exactly when its payload is nullish and it accesses a property.

Delivery semantics of `io.to(room).emit`: the message reaches every socket
that is currently a member of `room`, including the sender when the sender
is a member (`io.to`, unlike `socket.to`, does not exclude the sender).
`delivered` models this.
-/

/-- A JavaScript value as sent in a socket.io payload: undefined, null,
booleans, numbers (modelled as integers, which covers every identifier the
server stringifies), strings, and plain objects as association lists. -/
inductive Value : Type where
  | undefined : Value
  | null : Value
  | bool : Bool → Value
  | num : Int → Value
  | str : String → Value
  | obj : List (String × Value) → Value

/-- Is the value `null` or `undefined`?  Property access on such a value
throws a TypeError in JavaScript. -/
def Value.isNullish : Value → Bool
  | .undefined => true
  | .null => true
  | _ => false

/-- Property lookup on the field list of an object; an absent key reads as
`undefined`, as in JavaScript. -/
def lookupField : List (String × Value) → String → Value
  | [], _ => .undefined
  | (k, v) :: rest, key => if k = key then v else lookupField rest key

/-- `getField v k` is `v.k` for a non-nullish `v`: on an object it looks the
key up (absent keys read as `undefined`); on a non-object primitive it is
`undefined`.  The handlers only call it after the nullish check that models
the TypeError. -/
def getField : Value → String → Value
  | .obj fields, key => lookupField fields key
  | _, _ => .undefined

/-- JavaScript string interpolation of a value, as a template literal such
as `` `event:${eventId}` `` performs it. -/
def jsToString : Value → String
  | .undefined => "undefined"
  | .null => "null"
  | .bool true => "true"
  | .bool false => "false"
  | .num n => toString n
  | .str s => s
  | .obj _ => "[object Object]"

/-- One socket.io emit: `io.to(room).emit(name, payload)`. -/
structure Emit where
  room : String
  name : String
  payload : Value

/-- The state of one connected socket: the rooms it has joined (socket.io
keeps them in a `Set`; we keep an insertion-ordered list without
duplicates) and the `socket.data` attribute bag. -/
structure Conn where
  rooms : List String
  role : Option Value
  eventId : Option Value
  judgeId : Option Value

/-- `socket.join(room)`: adding a room a socket is already in is a no-op,
as for a JavaScript `Set`. -/
def joinRoom (rooms : List String) (room : String) : List String :=
  if room ∈ rooms then rooms else rooms ++ [room]

/-- A fresh connection: no rooms, empty attribute bag. -/
def Conn.fresh : Conn := ⟨[], none, none, none⟩

/-- The dispatcher of src/server.js: one case per registered
`socket.on(name, ...)` handler, translated line by line.  The result is the
updated state of the emitting socket together with the list of emits, or
`Except.error ()` when the JavaScript handler would throw a TypeError
(property access or destructuring on a nullish payload).  An event name
with no registered handler does nothing. -/
def handle (name : String) (data : Value) (c : Conn) : Except Unit (Conn × List Emit) :=
  if name = "join:event" then
    -- socket.join(`event:${eventId}`); the payload is the eventId itself
    .ok ({ c with rooms := joinRoom c.rooms ("event:" ++ jsToString data) }, [])
  else if name = "join:judge" then
    -- ({ eventId, judgeId }) destructuring throws on a nullish payload
    if data.isNullish then .error () else
    .ok ({ c with
            rooms := joinRoom c.rooms ("judges:" ++ jsToString (getField data "eventId"))
            judgeId := some (getField data "judgeId")
            eventId := some (getField data "eventId") }, [])
  else if name = "join:sound" then
    .ok ({ c with
            rooms := joinRoom c.rooms ("sound:" ++ jsToString data)
            role := some (.str "sound")
            eventId := some data }, [])
  else if name = "join:backstage" then
    .ok ({ c with
            rooms := joinRoom c.rooms ("backstage:" ++ jsToString data)
            role := some (.str "backstage")
            eventId := some data }, [])
  else if name = "join:announcer" then
    .ok ({ c with
            rooms := joinRoom c.rooms ("announcer:" ++ jsToString data)
            role := some (.str "announcer")
            eventId := some data }, [])
  else if name = "join:registration" then
    .ok ({ c with
            rooms := joinRoom c.rooms ("registration:" ++ jsToString data)
            role := some (.str "registration")
            eventId := some data }, [])
  else if name = "join:media" then
    .ok ({ c with
            rooms := joinRoom c.rooms ("media:" ++ jsToString data)
            role := some (.str "media")
            eventId := some data }, [])
  else if name = "performance:reorder" then
    -- console.log accesses data.eventId: throws on a nullish payload
    if data.isNullish then .error () else
    let eid := jsToString (getField data "eventId")
    .ok (c,
      [⟨"event:" ++ eid, "performance:reorder", data⟩,
       ⟨"judges:" ++ eid, "performance:reorder", data⟩,
       ⟨"sound:" ++ eid, "performance:reorder", data⟩,
       ⟨"announcer:" ++ eid, "performance:reorder", data⟩,
       ⟨"registration:" ++ eid, "performance:reorder", data⟩,
       ⟨"media:" ++ eid, "performance:reorder", data⟩])
  else if name = "performance:status" then
    if data.isNullish then .error () else
    let eid := jsToString (getField data "eventId")
    .ok (c,
      [⟨"event:" ++ eid, "performance:status", data⟩,
       ⟨"judges:" ++ eid, "performance:status", data⟩,
       ⟨"sound:" ++ eid, "performance:status", data⟩,
       ⟨"backstage:" ++ eid, "performance:status", data⟩,
       ⟨"announcer:" ++ eid, "performance:status", data⟩,
       ⟨"registration:" ++ eid, "performance:status", data⟩,
       ⟨"media:" ++ eid, "performance:status", data⟩])
  else if name = "performance:music_cue" then
    if data.isNullish then .error () else
    let eid := jsToString (getField data "eventId")
    .ok (c,
      [⟨"event:" ++ eid, "performance:music_cue", data⟩,
       ⟨"judges:" ++ eid, "performance:music_cue", data⟩,
       ⟨"sound:" ++ eid, "performance:music_cue", data⟩,
       ⟨"backstage:" ++ eid, "performance:music_cue", data⟩,
       ⟨"announcer:" ++ eid, "performance:music_cue", data⟩,
       ⟨"registration:" ++ eid, "performance:music_cue", data⟩,
       ⟨"media:" ++ eid, "performance:music_cue", data⟩])
  else if name = "entry:music_updated" then
    if data.isNullish then .error () else
    let eid := jsToString (getField data "eventId")
    .ok (c,
      [⟨"event:" ++ eid, "entry:music_updated", data⟩,
       ⟨"judges:" ++ eid, "entry:music_updated", data⟩,
       ⟨"sound:" ++ eid, "entry:music_updated", data⟩,
       ⟨"backstage:" ++ eid, "entry:music_updated", data⟩,
       ⟨"announcer:" ++ eid, "entry:music_updated", data⟩,
       ⟨"registration:" ++ eid, "entry:music_updated", data⟩,
       ⟨"media:" ++ eid, "entry:music_updated", data⟩])
  else if name = "entry:video_updated" then
    if data.isNullish then .error () else
    let eid := jsToString (getField data "eventId")
    .ok (c,
      [⟨"event:" ++ eid, "entry:video_updated", data⟩,
       ⟨"judges:" ++ eid, "entry:video_updated", data⟩,
       ⟨"sound:" ++ eid, "entry:video_updated", data⟩,
       ⟨"backstage:" ++ eid, "entry:video_updated", data⟩,
       ⟨"announcer:" ++ eid, "entry:video_updated", data⟩,
       ⟨"registration:" ++ eid, "entry:video_updated", data⟩,
       ⟨"media:" ++ eid, "entry:video_updated", data⟩])
  else if name = "event:control" then
    if data.isNullish then .error () else
    let eid := jsToString (getField data "eventId")
    .ok (c,
      [⟨"event:" ++ eid, "event:control", data⟩,
       ⟨"judges:" ++ eid, "event:control", data⟩,
       ⟨"sound:" ++ eid, "event:control", data⟩,
       ⟨"announcer:" ++ eid, "event:control", data⟩,
       ⟨"registration:" ++ eid, "event:control", data⟩,
       ⟨"media:" ++ eid, "event:control", data⟩])
  else if name = "presence:update" then
    if data.isNullish then .error () else
    let eid := jsToString (getField data "eventId")
    .ok (c,
      [⟨"event:" ++ eid, "presence:update", data⟩,
       ⟨"backstage:" ++ eid, "presence:update", data⟩,
       ⟨"announcer:" ++ eid, "presence:update", data⟩,
       ⟨"registration:" ++ eid, "presence:update", data⟩,
       ⟨"media:" ++ eid, "presence:update", data⟩])
  else if name = "performance:announced" then
    if data.isNullish then .error () else
    let eid := jsToString (getField data "eventId")
    .ok (c,
      [⟨"event:" ++ eid, "performance:announced", data⟩,
       ⟨"backstage:" ++ eid, "performance:announced", data⟩,
       ⟨"judges:" ++ eid, "performance:announced", data⟩,
       ⟨"sound:" ++ eid, "performance:announced", data⟩,
       ⟨"registration:" ++ eid, "performance:announced", data⟩,
       ⟨"media:" ++ eid, "performance:announced", data⟩])
  else if name = "test:notification" then
    if data.isNullish then .error () else
    .ok (c,
      [⟨"event:" ++ jsToString (getField data "eventId"), "notification",
        .obj [("type", .str "info"),
              ("message", .str "Test notification from backstage!"),
              ("eventId", getField data "eventId")]⟩])
  else if name = "disconnect" then
    -- only logs the reason
    .ok (c, [])
  else if name = "error" then
    -- only logs the error
    .ok (c, [])
  else
    .ok (c, [])

/-- The nine inbound event names of the fan-out dispatch table. -/
def dispatchNames : List String :=
  ["performance:reorder", "performance:status", "performance:music_cue",
   "entry:music_updated", "entry:video_updated", "event:control",
   "presence:update", "performance:announced", "test:notification"]

/-- The seven inbound join event names. -/
def joinNames : List String :=
  ["join:event", "join:judge", "join:sound", "join:backstage",
   "join:announcer", "join:registration", "join:media"]

/-- `io.to(room).emit` delivers an emit to every current member of the room;
`delivered emits c` is the sublist of `emits` that reaches socket `c`. -/
def delivered (emits : List Emit) (c : Conn) : List Emit :=
  emits.filter (fun e => decide (e.room ∈ c.rooms))

/-- The emits a dispatch handler produces for a given inbound name and
payload.  Dispatch handlers never change the socket state and their emits
do not depend on it, so we read the emits off a fresh connection; join
handlers and unknown names contribute `[]`, and a faulting handler
contributes `[]` as well. -/
def emitsOf (name : String) (d : Value) : List Emit :=
  match handle name d Conn.fresh with
  | .ok (_, es) => es
  | .error _ => []

/-- The seven room-name templates; a concrete room is a template with the
stringified eventId appended (`"judges:" ++ eventId`). -/
def allRoomTemplates : List String :=
  ["event:", "judges:", "sound:", "backstage:", "announcer:", "registration:", "media:"]

/-- Modelled from the spec: the dispatch table of section 4.2, one row per
inbound event name, giving the destination room-name templates in the order
the spec lists them (the bare event room first).  This is the reference the
code is compared against; `handle` is the translation of the code. -/
def specTable : List (String × List String) :=
  [("performance:reorder",
      ["event:", "judges:", "sound:", "announcer:", "registration:", "media:"]),
   ("performance:status",
      ["event:", "judges:", "sound:", "backstage:", "announcer:", "registration:", "media:"]),
   ("performance:music_cue",
      ["event:", "judges:", "sound:", "backstage:", "announcer:", "registration:", "media:"]),
   ("entry:music_updated",
      ["event:", "judges:", "sound:", "backstage:", "announcer:", "registration:", "media:"]),
   ("entry:video_updated",
      ["event:", "judges:", "sound:", "backstage:", "announcer:", "registration:", "media:"]),
   ("event:control",
      ["event:", "judges:", "sound:", "announcer:", "registration:", "media:"]),
   ("presence:update",
      ["event:", "backstage:", "announcer:", "registration:", "media:"]),
   ("performance:announced",
      ["event:", "backstage:", "judges:", "sound:", "registration:", "media:"]),
   ("test:notification",
      ["event:"])]

/-- The known-name set that claim C6 describes, under the one reading that
matches its counts: the five role-room join names of spec section 4.1, the
eight dispatch-table names that rebroadcast under the same event name
(everything in the table except the synthesizing `test:notification`),
plus `disconnect` and `error`. -/
def c6ClaimedKnownNames : List String :=
  ["join:sound", "join:backstage", "join:announcer", "join:registration", "join:media",
   "performance:reorder", "performance:status", "performance:music_cue",
   "entry:music_updated", "entry:video_updated", "event:control",
   "presence:update", "performance:announced",
   "disconnect", "error"]

/-- The `presence:update` scenario payload of the spec:
`{eventId:"evt1", performanceId:"p1", present:true}`. -/
def presencePayload : Value :=
  .obj [("eventId", .str "evt1"), ("performanceId", .str "p1"), ("present", .bool true)]

/-- The `test:notification` scenario payload of the spec: `{eventId:"evt1"}`. -/
def testPayload : Value := .obj [("eventId", .str "evt1")]

/-- Joining a room always makes the socket a member of it. -/
theorem mem_joinRoom_self (l : List String) (r : String) : r ∈ joinRoom l r := by
  unfold joinRoom
  split
  · assumption
  · simp

/-- `socket.join` is idempotent: joining a room the socket is already in is
a no-op. -/
theorem joinRoom_idem (l : List String) (r : String) :
    joinRoom (joinRoom l r) r = joinRoom l r := by
  by_cases h : r ∈ l <;> simp [joinRoom, h]

/-- Splitting a character list at a marker character that occurs in neither
left part is unambiguous. -/
theorem append_colon_inj :
    ∀ {p1 p2 r1 r2 : List Char}, ':' ∉ p1 → ':' ∉ p2 →
      p1 ++ ':' :: r1 = p2 ++ ':' :: r2 → p1 = p2 ∧ r1 = r2 := by
  intro p1
  induction p1 with
  | nil =>
    intro p2 r1 r2 h1 h2 h
    cases p2 with
    | nil =>
      simp only [List.nil_append, List.cons.injEq] at h
      exact ⟨rfl, h.2⟩
    | cons b p2 =>
      simp only [List.nil_append, List.cons_append, List.cons.injEq] at h
      exact absurd (h.1 ▸ List.mem_cons_self b p2) h2
  | cons a p1 ih =>
    intro p2 r1 r2 h1 h2 h
    cases p2 with
    | nil =>
      simp only [List.cons_append, List.nil_append, List.cons.injEq] at h
      exact absurd (h.1 ▸ List.mem_cons_self a p1) h1
    | cons b p2 =>
      simp only [List.cons_append, List.cons.injEq] at h
      obtain ⟨rfl, htail⟩ := h
      have hrec := ih (fun hm => h1 (List.mem_cons_of_mem _ hm))
        (fun hm => h2 (List.mem_cons_of_mem _ hm)) htail
      exact ⟨by rw [hrec.1], hrec.2⟩

/-- Every room-name template is a colon-free stem followed by one colon. -/
theorem template_shape :
    ∀ t ∈ allRoomTemplates, ∃ p : List Char, ':' ∉ p ∧ t.data = p ++ [':'] := by
  intro t ht
  fin_cases ht
  · exact ⟨['e', 'v', 'e', 'n', 't'], by decide, by decide⟩
  · exact ⟨['j', 'u', 'd', 'g', 'e', 's'], by decide, by decide⟩
  · exact ⟨['s', 'o', 'u', 'n', 'd'], by decide, by decide⟩
  · exact ⟨['b', 'a', 'c', 'k', 's', 't', 'a', 'g', 'e'], by decide, by decide⟩
  · exact ⟨['a', 'n', 'n', 'o', 'u', 'n', 'c', 'e', 'r'], by decide, by decide⟩
  · exact ⟨['r', 'e', 'g', 'i', 's', 't', 'r', 'a', 't', 'i', 'o', 'n'], by decide, by decide⟩
  · exact ⟨['m', 'e', 'd', 'i', 'a'], by decide, by decide⟩

/-- Concrete room names determine their template and their eventId: two
instantiated templates coincide only when both parts coincide. -/
theorem roomTemplate_append_inj :
    ∀ t1 ∈ allRoomTemplates, ∀ t2 ∈ allRoomTemplates, ∀ E1 E2 : String,
      t1 ++ E1 = t2 ++ E2 → t1 = t2 ∧ E1 = E2 := by
  intro t1 h1 t2 h2 E1 E2 h
  obtain ⟨p1, hc1, hd1⟩ := template_shape t1 h1
  obtain ⟨p2, hc2, hd2⟩ := template_shape t2 h2
  have hdata : t1.data ++ E1.data = t2.data ++ E2.data := by
    have hd := congrArg String.data h
    simpa [String.data_append] using hd
  rw [hd1, hd2, List.append_assoc, List.append_assoc] at hdata
  simp only [List.singleton_append] at hdata
  obtain ⟨hp, hr⟩ := append_colon_inj hc1 hc2 hdata
  refine ⟨String.ext ?_, String.ext hr⟩
  rw [hd1, hd2, hp]

/-- An emit reaches every current member of its destination room. -/
theorem mem_delivered {emits : List Emit} {recv : Conn} {e : Emit}
    (he : e ∈ emits) (hr : e.room ∈ recv.rooms) : e ∈ delivered emits recv :=
  List.mem_filter.mpr ⟨he, by simpa using hr⟩

/-- If the emitted rooms are exactly the templates instantiated with `E`,
every member of an instantiated room receives an emit addressed to it. -/
theorem delivered_covers {emits : List Emit} {ts : List String} {E : String}
    (hrooms : emits.map Emit.room = ts.map (fun t => t ++ E)) :
    ∀ recv : Conn, ∀ t ∈ ts, (t ++ E) ∈ recv.rooms →
      ∃ e ∈ delivered emits recv, e.room = t ++ E := by
  intro recv t ht hm
  have hmem : (t ++ E) ∈ emits.map Emit.room := by
    rw [hrooms]
    exact List.mem_map.mpr ⟨t, ht, rfl⟩
  obtain ⟨e, he, hroom⟩ := List.mem_map.mp hmem
  exact ⟨e, mem_delivered he (by rw [hroom]; exact hm), hroom⟩

/-- If the emitted rooms are all templates instantiated with `E`, a socket
whose rooms are all templates instantiated with a different `E'` receives
nothing. -/
theorem delivered_eq_nil {emits : List Emit} {ts : List String} {E : String}
    (hrooms : emits.map Emit.room = ts.map (fun t => t ++ E))
    (hts : ∀ t ∈ ts, t ∈ allRoomTemplates) {E' : String} (hne : E' ≠ E)
    (recv : Conn) (hrecv : ∀ r ∈ recv.rooms, ∃ t ∈ allRoomTemplates, r = t ++ E') :
    delivered emits recv = [] := by
  apply List.filter_eq_nil_iff.mpr
  intro e he
  simp only [decide_eq_true_eq]
  intro hmem
  have hroom : e.room ∈ emits.map Emit.room := List.mem_map_of_mem _ he
  rw [hrooms] at hroom
  obtain ⟨t, ht, hte⟩ := List.mem_map.mp hroom
  obtain ⟨t', ht', he'⟩ := hrecv _ hmem
  have hinj := roomTemplate_append_inj t (hts t ht) t' ht' E E' (by rw [hte, he'])
  exact hne hinj.2.symm

/-- Every destination template in every row of the dispatch table is one of
the seven room templates. -/
theorem specTable_templates :
    ∀ row ∈ specTable, ∀ t ∈ row.2, t ∈ allRoomTemplates := by decide

/-- Every dispatch-table name has a row in the table. -/
theorem dispatch_row :
    ∀ name ∈ dispatchNames, ∃ row ∈ specTable, row.1 = name := by decide

/-- On a non-nullish payload, every dispatch handler succeeds, leaves the
socket state unchanged, and emits `emitsOf`. -/
theorem handle_ok :
    ∀ row ∈ specTable, ∀ (d : Value), d.isNullish = false →
      ∀ c : Conn, handle row.1 d c = .ok (c, emitsOf row.1 d) := by
  intro row hrow d hd c
  fin_cases hrow <;> simp [handle, emitsOf, hd]

/-- The rooms a dispatch handler emits to are exactly its table row's
templates instantiated with the stringified `eventId` field read from the
payload. -/
theorem handle_emits_rooms :
    ∀ row ∈ specTable, ∀ (d : Value), d.isNullish = false →
      (emitsOf row.1 d).map Emit.room =
        row.2.map (fun t => t ++ jsToString (getField d "eventId")) := by
  intro row hrow d hd
  fin_cases hrow <;> simp [emitsOf, handle, hd]

/-- If the emitted rooms are templates instantiated with `E`, every emit's
room has that shape. -/
theorem rooms_template_form {emits : List Emit} {ts : List String} {E : String}
    (hrooms : emits.map Emit.room = ts.map (fun t => t ++ E))
    (hts : ∀ t ∈ ts, t ∈ allRoomTemplates) :
    ∀ e ∈ emits, ∃ t ∈ allRoomTemplates, e.room = t ++ E := by
  intro e he
  have hmem : e.room ∈ emits.map Emit.room := List.mem_map_of_mem _ he
  rw [hrooms] at hmem
  obtain ⟨t, ht, hte⟩ := List.mem_map.mp hmem
  exact ⟨t, hts t ht, hte.symm⟩

/-- C3: an inbound `presence:update` with payload
`{eventId:"evt1", performanceId:"p1", present:true}` is rebroadcast
unchanged under the same event name to exactly the rooms `event:evt1`,
`backstage:evt1`, `announcer:evt1`, `registration:evt1` and `media:evt1`,
and to no other room — in particular not to `judges:evt1` or `sound:evt1`. -/
theorem c3_presence_update_scenario :
    (∀ c : Conn, handle "presence:update" presencePayload c =
      .ok (c,
        [⟨"event:evt1", "presence:update", presencePayload⟩,
         ⟨"backstage:evt1", "presence:update", presencePayload⟩,
         ⟨"announcer:evt1", "presence:update", presencePayload⟩,
         ⟨"registration:evt1", "presence:update", presencePayload⟩,
         ⟨"media:evt1", "presence:update", presencePayload⟩])) ∧
    "judges:evt1" ∉ (emitsOf "presence:update" presencePayload).map Emit.room ∧
    "sound:evt1" ∉ (emitsOf "presence:update" presencePayload).map Emit.room := by
  refine ⟨fun c => rfl, by decide, by decide⟩

/-- C4: an inbound `test:notification` with payload `{eventId:"evt1"}`
produces exactly one outbound message, under the event name `notification`,
with the synthesized payload
`{type:"info", message:"Test notification from backstage!", eventId:"evt1"}`,
addressed to the room `event:evt1` only, so it is delivered only to members
of that room and the original payload is not forwarded. -/
theorem c4_test_notification_scenario :
    (∀ c : Conn, handle "test:notification" testPayload c =
      .ok (c, [⟨"event:evt1", "notification",
        .obj [("type", .str "info"),
              ("message", .str "Test notification from backstage!"),
              ("eventId", .str "evt1")]⟩])) ∧
    (∀ recv : Conn, ∀ e ∈ delivered (emitsOf "test:notification" testPayload) recv,
      e.room = "event:evt1" ∧ "event:evt1" ∈ recv.rooms) := by
  refine ⟨fun c => rfl, ?_⟩
  intro recv e he
  obtain ⟨hmem, hdec⟩ := List.mem_filter.mp he
  have hr : e.room ∈ recv.rooms := of_decide_eq_true hdec
  have he1 : e = ⟨"event:evt1", "notification",
      .obj [("type", .str "info"),
            ("message", .str "Test notification from backstage!"),
            ("eventId", .str "evt1")]⟩ := by
    simpa [emitsOf, handle, testPayload, Value.isNullish, getField, lookupField] using hmem
  subst he1
  exact ⟨rfl, hr⟩

/-- C5: every join request is idempotent: if handling a join once takes the
connection to state `c2` (and emits `out`, always `[]`), handling the same
join again from `c2` returns the same state `c2` with the same output, for
every join kind, every eventId payload and every judgeId. -/
theorem c5_join_idempotent :
    ∀ name ∈ joinNames, ∀ (v : Value) (c c2 : Conn) (out : List Emit),
      handle name v c = .ok (c2, out) → handle name v c2 = .ok (c2, out) := by
  intro name hmem v c c2 out h
  fin_cases hmem
  · simp [handle] at h
    obtain ⟨h1, rfl⟩ := h
    subst h1
    simp [handle, joinRoom_idem]
  · by_cases hv : v.isNullish = true
    · simp [handle, hv] at h
    · simp only [Bool.not_eq_true] at hv
      simp [handle, hv] at h
      obtain ⟨h1, rfl⟩ := h
      subst h1
      simp [handle, hv, joinRoom_idem]
  · simp [handle] at h
    obtain ⟨h1, rfl⟩ := h
    subst h1
    simp [handle, joinRoom_idem]
  · simp [handle] at h
    obtain ⟨h1, rfl⟩ := h
    subst h1
    simp [handle, joinRoom_idem]
  · simp [handle] at h
    obtain ⟨h1, rfl⟩ := h
    subst h1
    simp [handle, joinRoom_idem]
  · simp [handle] at h
    obtain ⟨h1, rfl⟩ := h
    subst h1
    simp [handle, joinRoom_idem]
  · simp [handle] at h
    obtain ⟨h1, rfl⟩ := h
    subst h1
    simp [handle, joinRoom_idem]

/-- C9: `join:judge` records only `judgeId` and `eventId` on the connection
and never touches the `role` attribute, while the five role joins
(`join:sound`, `join:backstage`, `join:announcer`, `join:registration`,
`join:media`) each set `role` to their role string. -/
theorem c9_join_judge_does_not_set_role :
    (∀ (v : Value) (c c2 : Conn) (out : List Emit),
        handle "join:judge" v c = .ok (c2, out) →
        c2.role = c.role ∧ c2.judgeId = some (getField v "judgeId") ∧
          c2.eventId = some (getField v "eventId")) ∧
    (∀ (v : Value) (c : Conn), ∃ c2 : Conn,
        handle "join:sound" v c = .ok (c2, []) ∧ c2.role = some (.str "sound")) ∧
    (∀ (v : Value) (c : Conn), ∃ c2 : Conn,
        handle "join:backstage" v c = .ok (c2, []) ∧ c2.role = some (.str "backstage")) ∧
    (∀ (v : Value) (c : Conn), ∃ c2 : Conn,
        handle "join:announcer" v c = .ok (c2, []) ∧ c2.role = some (.str "announcer")) ∧
    (∀ (v : Value) (c : Conn), ∃ c2 : Conn,
        handle "join:registration" v c = .ok (c2, []) ∧
          c2.role = some (.str "registration")) ∧
    (∀ (v : Value) (c : Conn), ∃ c2 : Conn,
        handle "join:media" v c = .ok (c2, []) ∧ c2.role = some (.str "media")) := by
  refine ⟨?_, fun v c => ⟨_, rfl, rfl⟩, fun v c => ⟨_, rfl, rfl⟩,
    fun v c => ⟨_, rfl, rfl⟩, fun v c => ⟨_, rfl, rfl⟩, fun v c => ⟨_, rfl, rfl⟩⟩
  intro v c c2 out h
  by_cases hv : v.isNullish = true
  · simp [handle, hv] at h
  · simp only [Bool.not_eq_true] at hv
    simp [handle, hv] at h
    obtain ⟨h1, h2⟩ := h
    subst h1
    simp

/-- C1: for every event name in the dispatch table, a message whose payload
carries `eventId = E` is emitted to exactly the destination rooms the table
lists for that name, instantiated with `E`; every currently-joined member
of each listed room receives it; and no emitted room is derived from any
other eventId, so a connection joined only to rooms of `E' ≠ E` receives
nothing. -/
theorem c1_fanout_completeness_and_isolation :
    ∀ row ∈ specTable, ∀ (d : Value) (E : String),
      d.isNullish = false → getField d "eventId" = .str E →
      (∀ c : Conn, handle row.1 d c = .ok (c, emitsOf row.1 d)) ∧
      (emitsOf row.1 d).map Emit.room = row.2.map (fun t => t ++ E) ∧
      (∀ recv : Conn, ∀ t ∈ row.2, (t ++ E) ∈ recv.rooms →
        ∃ e ∈ delivered (emitsOf row.1 d) recv, e.room = t ++ E) ∧
      (∀ E' : String, E' ≠ E → ∀ recv : Conn,
        (∀ r ∈ recv.rooms, ∃ t ∈ allRoomTemplates, r = t ++ E') →
        delivered (emitsOf row.1 d) recv = []) := by
  intro row hrow d E hd hE
  have hrooms := handle_emits_rooms row hrow d hd
  rw [hE] at hrooms
  simp only [jsToString] at hrooms
  refine ⟨handle_ok row hrow d hd, hrooms, delivered_covers hrooms, ?_⟩
  intro E' hne recv hrecv
  exact delivered_eq_nil hrooms (specTable_templates row hrow) hne recv hrecv

/-- C2: `performance:announced` with `eventId = E` is rebroadcast under the
same name to `event:E`, `backstage:E`, `judges:E`, `sound:E`,
`registration:E` and `media:E` but not to `announcer:E`, while every other
non-synthesizing dispatch-table event does include the `announcer:E` room
among its destinations. -/
theorem c2_announced_excludes_announcer_room :
    ∀ (d : Value) (E : String), d.isNullish = false → getField d "eventId" = .str E →
      (∀ c : Conn, handle "performance:announced" d c = .ok (c,
        [⟨"event:" ++ E, "performance:announced", d⟩,
         ⟨"backstage:" ++ E, "performance:announced", d⟩,
         ⟨"judges:" ++ E, "performance:announced", d⟩,
         ⟨"sound:" ++ E, "performance:announced", d⟩,
         ⟨"registration:" ++ E, "performance:announced", d⟩,
         ⟨"media:" ++ E, "performance:announced", d⟩])) ∧
      ("announcer:" ++ E) ∉ (emitsOf "performance:announced" d).map Emit.room ∧
      (∀ name ∈ dispatchNames, name ≠ "performance:announced" → name ≠ "test:notification" →
        ("announcer:" ++ E) ∈ (emitsOf name d).map Emit.room) := by
  intro d E hd hE
  refine ⟨fun c => by simp [handle, hd, hE, jsToString], ?_, ?_⟩
  · intro hmem
    simp [emitsOf, handle, hd, hE, jsToString] at hmem
    rcases hmem with h | h | h | h | h | h <;>
      exact absurd (roomTemplate_append_inj _ (by decide) _ (by decide) _ _ h).1 (by decide)
  · intro name hmem h1 h2
    fin_cases hmem <;>
      first
        | exact absurd rfl h1
        | exact absurd rfl h2
        | simp [emitsOf, handle, hd, hE, jsToString]

/-- C6 counterexample: reading the claim's fifteen known names as the five
role-join names, the eight same-name rebroadcast dispatch names, disconnect
and error — the only reading matching its counts — both `test:notification`
and `join:event` fall outside that set, yet the first produces an outbound
broadcast and the second changes the room membership of the connection, so
the claim as stated is false. -/
theorem c6_counterexample :
    "test:notification" ∉ c6ClaimedKnownNames ∧
    "join:event" ∉ c6ClaimedKnownNames ∧
    handle "test:notification" (.obj [("eventId", .str "evt1")]) Conn.fresh =
      .ok (Conn.fresh, [⟨"event:evt1", "notification",
        .obj [("type", .str "info"),
              ("message", .str "Test notification from backstage!"),
              ("eventId", .str "evt1")]⟩]) ∧
    handle "join:event" (.str "evt1") Conn.fresh =
      .ok (⟨["event:evt1"], none, none, none⟩, []) ∧
    (⟨["event:evt1"], none, none, none⟩ : Conn) ≠ Conn.fresh := by
  refine ⟨by decide, by decide, rfl, rfl, ?_⟩
  intro h
  simp [Conn.fresh] at h

/-- C6 amended: for every inbound event name with no registered handler —
not one of the seven join names, the nine dispatch-table names, disconnect,
or error — receiving a message under that name produces no outbound
broadcast and leaves the connection state unchanged. -/
theorem c6_amended_unknown_names_inert :
    ∀ name : String, name ∉ joinNames → name ∉ dispatchNames →
      name ≠ "disconnect" → name ≠ "error" →
      ∀ (v : Value) (c : Conn), handle name v c = .ok (c, []) := by
  intro name hj hd h1 h2 v c
  simp [joinNames] at hj
  simp [dispatchNames] at hd
  obtain ⟨j1, j2, j3, j4, j5, j6, j7⟩ := hj
  obtain ⟨d1, d2, d3, d4, d5, d6, d7, d8, d9⟩ := hd
  simp [handle, j1, j2, j3, j4, j5, j6, j7, d1, d2, d3, d4, d5, d6, d7, d8, d9, h1, h2]

/-- C7 counterexample: a null payload on the dispatch-table name
`performance:reorder` makes the handler fault (in JavaScript,
`data.eventId` on null throws a TypeError, which the process-level
uncaught-exception handler turns into process exit), so the dispatcher does
fail on a payload that is not an object, contrary to the claim. -/
theorem c7_counterexample :
    handle "performance:reorder" Value.null Conn.fresh = .error () := rfl

/-- C7 amended: for every dispatch-table event name and every payload that
is not null/undefined — including non-object primitives and objects missing
expected fields — the dispatcher does not fail: missing fields read as an
absent value, the connection state is unchanged, every emitted room is
computed from whatever eventId value was read, and (for the non-synthesizing
names) the payload is forwarded as-is under the same event name. -/
theorem c7_amended_no_fault_on_non_nullish_payloads :
    ∀ name ∈ dispatchNames, ∀ (d : Value), d.isNullish = false → ∀ c : Conn,
      handle name d c = .ok (c, emitsOf name d) ∧
      (∀ e ∈ emitsOf name d, ∃ t ∈ allRoomTemplates,
          e.room = t ++ jsToString (getField d "eventId")) ∧
      (name ≠ "test:notification" → ∀ e ∈ emitsOf name d,
          e.name = name ∧ e.payload = d) := by
  intro name hmem d hd c
  obtain ⟨row, hrow, hname⟩ := dispatch_row name hmem
  subst hname
  refine ⟨handle_ok row hrow d hd c,
    rooms_template_form (handle_emits_rooms row hrow d hd) (specTable_templates row hrow), ?_⟩
  intro hne
  fin_cases hrow <;>
    first
      | exact absurd rfl hne
      | simp [emitsOf, handle, hd, List.forall_mem_cons]

/-- C8: for every dispatch-table event name, the destination rooms (and the
outbound event names) are a function of the inbound event name and the
payload's `eventId` field only: two payloads that agree on `eventId` are
routed identically regardless of every other field. -/
theorem c8_routing_depends_only_on_event_name_and_eventId :
    ∀ name ∈ dispatchNames, ∀ (d1 d2 : Value),
      d1.isNullish = false → d2.isNullish = false →
      getField d1 "eventId" = getField d2 "eventId" →
      (emitsOf name d1).map Emit.room = (emitsOf name d2).map Emit.room ∧
      (emitsOf name d1).map Emit.name = (emitsOf name d2).map Emit.name := by
  intro name hmem d1 d2 h1 h2 heq
  fin_cases hmem <;>
    exact ⟨by simp [emitsOf, handle, h1, h2, heq], by simp [emitsOf, handle, h1, h2]⟩

/-- C10: no dispatch handler excludes the sending connection: the handlers
emit with `io.to`, whose delivery depends only on room membership, so a
sender that is a member of a destination room receives its own rebroadcast;
the announcer omission in `performance:announced` is by room name (no
`announcer:E` room is emitted to), not by sender identity. -/
theorem c10_sender_receives_own_rebroadcast :
    ∀ name ∈ dispatchNames, ∀ (d : Value), d.isNullish = false →
    ∀ (sender c2 : Conn) (emits : List Emit),
      handle name d sender = .ok (c2, emits) →
      (∀ e ∈ emits, e.room ∈ sender.rooms → e ∈ delivered emits sender) ∧
      (name = "performance:announced" → ∀ E : String, getField d "eventId" = .str E →
        ("announcer:" ++ E) ∉ emits.map Emit.room) := by
  intro name hmem d hd sender c2 emits h
  refine ⟨fun e he hr => mem_delivered he hr, ?_⟩
  rintro rfl E hE
  simp [handle, hd, hE, jsToString] at h
  obtain ⟨h1, h2⟩ := h
  subst h1
  rw [← h2]
  intro hmem'
  simp only [List.map_cons, List.map_nil, List.mem_cons, List.not_mem_nil, or_false] at hmem'
  rcases hmem' with h | h | h | h | h | h <;>
    exact absurd (roomTemplate_append_inj _ (by decide) _ (by decide) _ _ h).1 (by decide)

/-- Witness for C1 at the `performance:reorder` row, payload
`{eventId:"evt1"}`. -/
theorem c1_fanout_witness :
    (∀ c : Conn, handle "performance:reorder" (Value.obj [("eventId", Value.str "evt1")]) c =
      .ok (c, emitsOf "performance:reorder" (Value.obj [("eventId", Value.str "evt1")]))) ∧
    (emitsOf "performance:reorder" (Value.obj [("eventId", Value.str "evt1")])).map Emit.room =
      (["event:", "judges:", "sound:", "announcer:", "registration:", "media:"] : List String).map
        (fun t => t ++ "evt1") ∧
    (∀ recv : Conn,
      ∀ t ∈ (["event:", "judges:", "sound:", "announcer:", "registration:", "media:"] : List String),
      (t ++ "evt1") ∈ recv.rooms →
      ∃ e ∈ delivered (emitsOf "performance:reorder" (Value.obj [("eventId", Value.str "evt1")])) recv,
        e.room = t ++ "evt1") ∧
    (∀ E' : String, E' ≠ "evt1" → ∀ recv : Conn,
      (∀ r ∈ recv.rooms, ∃ t ∈ allRoomTemplates, r = t ++ E') →
      delivered (emitsOf "performance:reorder" (Value.obj [("eventId", Value.str "evt1")])) recv = []) :=
  c1_fanout_completeness_and_isolation
    ("performance:reorder", ["event:", "judges:", "sound:", "announcer:", "registration:", "media:"])
    (by decide) (Value.obj [("eventId", Value.str "evt1")]) "evt1" rfl rfl

/-- Witness for C2 at payload `{eventId:"e"}`. -/
theorem c2_announced_witness :
    (∀ c : Conn, handle "performance:announced" (Value.obj [("eventId", Value.str "e")]) c =
      .ok (c,
        [⟨"event:" ++ "e", "performance:announced", Value.obj [("eventId", Value.str "e")]⟩,
         ⟨"backstage:" ++ "e", "performance:announced", Value.obj [("eventId", Value.str "e")]⟩,
         ⟨"judges:" ++ "e", "performance:announced", Value.obj [("eventId", Value.str "e")]⟩,
         ⟨"sound:" ++ "e", "performance:announced", Value.obj [("eventId", Value.str "e")]⟩,
         ⟨"registration:" ++ "e", "performance:announced", Value.obj [("eventId", Value.str "e")]⟩,
         ⟨"media:" ++ "e", "performance:announced", Value.obj [("eventId", Value.str "e")]⟩])) ∧
    ("announcer:" ++ "e") ∉
      (emitsOf "performance:announced" (Value.obj [("eventId", Value.str "e")])).map Emit.room ∧
    (∀ name ∈ dispatchNames, name ≠ "performance:announced" → name ≠ "test:notification" →
      ("announcer:" ++ "e") ∈
        (emitsOf name (Value.obj [("eventId", Value.str "e")])).map Emit.room) :=
  c2_announced_excludes_announcer_room (Value.obj [("eventId", Value.str "e")]) "e" rfl rfl

/-- Witness for C5: a second `join:event` for eventId `"e"` from the state
the first join produced leaves the state unchanged. -/
theorem c5_join_witness :
    handle "join:event" (Value.str "e") (⟨["event:e"], none, none, none⟩ : Conn) =
      .ok ((⟨["event:e"], none, none, none⟩ : Conn), []) :=
  c5_join_idempotent "join:event" (by decide) (Value.str "e") Conn.fresh
    ⟨["event:e"], none, none, none⟩ [] rfl

/-- Witness for the amended C6 at the unregistered name `mystery:event`. -/
theorem c6_amended_witness :
    handle "mystery:event" Value.null Conn.fresh = .ok (Conn.fresh, []) :=
  c6_amended_unknown_names_inert "mystery:event" (by decide) (by decide) (by decide) (by decide)
    Value.null Conn.fresh

/-- Witness for the amended C7 at a payload that is a bare string, so every
expected field reads as absent. -/
theorem c7_amended_witness :
    handle "performance:status" (Value.str "hello") Conn.fresh =
      .ok (Conn.fresh, emitsOf "performance:status" (Value.str "hello")) ∧
    (∀ e ∈ emitsOf "performance:status" (Value.str "hello"), ∃ t ∈ allRoomTemplates,
        e.room = t ++ jsToString (getField (Value.str "hello") "eventId")) ∧
    ("performance:status" ≠ "test:notification" →
      ∀ e ∈ emitsOf "performance:status" (Value.str "hello"),
        e.name = "performance:status" ∧ e.payload = Value.str "hello") :=
  c7_amended_no_fault_on_non_nullish_payloads "performance:status" (by decide)
    (Value.str "hello") rfl Conn.fresh

/-- Witness for C8: two `event:control` payloads agreeing on eventId but
differing in `action` are routed identically. -/
theorem c8_routing_witness :
    (emitsOf "event:control"
        (Value.obj [("eventId", Value.str "e"), ("action", Value.str "start")])).map Emit.room =
      (emitsOf "event:control" (Value.obj [("eventId", Value.str "e")])).map Emit.room ∧
    (emitsOf "event:control"
        (Value.obj [("eventId", Value.str "e"), ("action", Value.str "start")])).map Emit.name =
      (emitsOf "event:control" (Value.obj [("eventId", Value.str "e")])).map Emit.name :=
  c8_routing_depends_only_on_event_name_and_eventId "event:control" (by decide)
    (Value.obj [("eventId", Value.str "e"), ("action", Value.str "start")])
    (Value.obj [("eventId", Value.str "e")]) rfl rfl rfl

/-- Witness for C10: a `performance:reorder` sender that is a member of the
destination room `event:e` is among the recipients of its own rebroadcast. -/
theorem c10_sender_witness :
    (∀ e ∈ ([⟨"event:e", "performance:reorder", Value.obj [("eventId", Value.str "e")]⟩,
       ⟨"judges:e", "performance:reorder", Value.obj [("eventId", Value.str "e")]⟩,
       ⟨"sound:e", "performance:reorder", Value.obj [("eventId", Value.str "e")]⟩,
       ⟨"announcer:e", "performance:reorder", Value.obj [("eventId", Value.str "e")]⟩,
       ⟨"registration:e", "performance:reorder", Value.obj [("eventId", Value.str "e")]⟩,
       ⟨"media:e", "performance:reorder", Value.obj [("eventId", Value.str "e")]⟩] : List Emit),
      e.room ∈ (⟨["event:e"], none, none, none⟩ : Conn).rooms →
      e ∈ delivered
        [⟨"event:e", "performance:reorder", Value.obj [("eventId", Value.str "e")]⟩,
         ⟨"judges:e", "performance:reorder", Value.obj [("eventId", Value.str "e")]⟩,
         ⟨"sound:e", "performance:reorder", Value.obj [("eventId", Value.str "e")]⟩,
         ⟨"announcer:e", "performance:reorder", Value.obj [("eventId", Value.str "e")]⟩,
         ⟨"registration:e", "performance:reorder", Value.obj [("eventId", Value.str "e")]⟩,
         ⟨"media:e", "performance:reorder", Value.obj [("eventId", Value.str "e")]⟩]
        (⟨["event:e"], none, none, none⟩ : Conn)) ∧
    ("performance:reorder" = "performance:announced" →
      ∀ E : String, getField (Value.obj [("eventId", Value.str "e")]) "eventId" = .str E →
      ("announcer:" ++ E) ∉
        ([⟨"event:e", "performance:reorder", Value.obj [("eventId", Value.str "e")]⟩,
          ⟨"judges:e", "performance:reorder", Value.obj [("eventId", Value.str "e")]⟩,
          ⟨"sound:e", "performance:reorder", Value.obj [("eventId", Value.str "e")]⟩,
          ⟨"announcer:e", "performance:reorder", Value.obj [("eventId", Value.str "e")]⟩,
          ⟨"registration:e", "performance:reorder", Value.obj [("eventId", Value.str "e")]⟩,
          ⟨"media:e", "performance:reorder", Value.obj [("eventId", Value.str "e")]⟩] :
            List Emit).map Emit.room) :=
  c10_sender_receives_own_rebroadcast "performance:reorder" (by decide)
    (Value.obj [("eventId", Value.str "e")]) rfl
    ⟨["event:e"], none, none, none⟩ ⟨["event:e"], none, none, none⟩ _ rfl
